import Mathlib

/-!
Verification of the ONNX model version-check and export scripts
(`models/scripts/check_all_models.py` and `models/export_to_onnx.py`).

The checking script is a straight-line loop over a fixed name→path table:
for each entry it loads the ONNX file, reads `ir_version` and
`opset_import[0].version`, prints a compatibility line depending on
`ir_version <= 9`, and catches `FileNotFoundError` / any other exception
per model.  We embed the filesystem/parser as a function
`String → LoadOutcome`, the loop as a list traversal, and the printed
report as a `List String`.
-/

namespace RoboRover

/-- A compatibility verdict, as the spec abstracts the two print branches
of lines 33–36 of `check_all_models.py`. -/
inductive CompatibilityVerdict where
  | compatibleWithCurrent
  | requiresUpgrade (minVersionLabel : String)
deriving DecidableEq, Repr

/-- The two version fields the checking script reads from a parsed model. -/
structure VersionInfo where
  ir_version : Int
  opset_version : Int
deriving DecidableEq, Repr

/-- Per-model result of one loop iteration: the try-block succeeds, or
`FileNotFoundError` is caught, or any other exception is caught with its
message. -/
inductive CheckResult where
  | success (info : VersionInfo) (verdict : CompatibilityVerdict)
  | notFound
  | loadError (message : String)
deriving DecidableEq, Repr

/-- One entry of a parsed model's `opset_import` list; the script reads
only its `version` field. -/
structure OpsetImport where
  version : Int
deriving DecidableEq, Repr

/-- The fields of a parsed ONNX model that `check_all_models.py` reads:
the top-level `ir_version` and the repeated `opset_import` field. -/
structure OnnxModel where
  ir_version : Int
  opset_import : List OpsetImport
deriving DecidableEq, Repr

/-- Outcome of `onnx.load(path)`: a parsed model, a `FileNotFoundError`,
or some other exception carrying a message. -/
inductive LoadOutcome where
  | found (model : OnnxModel)
  | fileMissing
  | raised (message : String)
deriving DecidableEq, Repr

/-- One name/path entry of the `models` dictionary. -/
structure ModelDescriptor where
  name : String
  path : String
deriving DecidableEq, Repr

/-- The compatibility branch of lines 33–36: only `ir_version` is
inspected; `ir_version <= 9` prints the "Compatible with ONNX Runtime
1.16.3" line, anything else the "Requires ONNX Runtime 1.17+" line. -/
def classify (ir_version : Int) : CompatibilityVerdict :=
  if ir_version ≤ 9 then .compatibleWithCurrent else .requiresUpgrade "1.17+"

/-- Message of the Python `IndexError` raised by `model.opset_import[0]`
when the repeated field is empty; it is caught by the generic
`except Exception` handler like any other failure. -/
def indexErrorMessage : String := "list index out of range"

/-- The body of one loop iteration (lines 23–44), as a result value: load
the file at `path`, on success read `ir_version` and
`opset_import[0].version` and classify; `FileNotFoundError` gives
`notFound`, any other exception (including the `IndexError` from an empty
`opset_import`) gives `loadError` with the exception's message. -/
def checkModel (fs : String → LoadOutcome) (path : String) : CheckResult :=
  match fs path with
  | .fileMissing => .notFound
  | .raised msg => .loadError msg
  | .found model =>
    match model.opset_import with
    | [] => .loadError indexErrorMessage
    | op :: _ => .success ⟨model.ir_version, op.version⟩ (classify model.ir_version)

/-- The lines printed by one loop iteration (lines 28–44).  On success the
name/path header, both version lines, then the compatibility branch; on
`FileNotFoundError` the "Model not found" line; on any other exception the
"Error loading model" line with the exception text.  Each branch ends with
the blank line of the trailing `print()`. -/
def checkModelOutput (fs : String → LoadOutcome) (name path : String) : List String :=
  match fs path with
  | .fileMissing => [s!"{name}: Model not found at {path}", ""]
  | .raised msg => [s!"{name}: Error loading model - {msg}", ""]
  | .found model =>
    match model.opset_import with
    | [] => [s!"{name}: Error loading model - {indexErrorMessage}", ""]
    | op :: _ =>
      let ir := model.ir_version
      let opv := op.version
      [s!"{name} ({path}):",
       s!"  IR version: {ir}",
       s!"  Opset version: {opv}",
       if ir ≤ 9 then "  ✓ Compatible with ONNX Runtime 1.16.3"
       else s!"  ✗ Requires ONNX Runtime 1.17+ (IR version {ir})",
       ""]

/-- The loop of line 22: one `CheckResult` per descriptor, in input
order. -/
def run (fs : String → LoadOutcome) (descriptors : List ModelDescriptor) :
    List CheckResult :=
  descriptors.map (fun d => checkModel fs d.path)

/-- The loop of line 22 with an explicit trace of the `onnx.load` calls it
makes: each iteration performs exactly one load, at the descriptor's path,
whatever the outcome of earlier iterations. -/
def runWithAttempts (fs : String → LoadOutcome) :
    List ModelDescriptor → List (String × CheckResult)
  | [] => []
  | d :: ds => (d.path, checkModel fs d.path) :: runWithAttempts fs ds

/-- All lines printed by the loop, in input order. -/
def runOutput (fs : String → LoadOutcome) (descriptors : List ModelDescriptor) :
    List String :=
  (descriptors.map (fun d => checkModelOutput fs d.name d.path)).flatten

/-- The `models` dictionary of lines 12–15. -/
def models : List ModelDescriptor :=
  [⟨"YOLO", "../.cache/yolo/yolo12n.onnx"⟩,
   ⟨"OSNet", "../.cache/reid/osnet_x0_25.onnx"⟩]

/-- The `"=" * 60` divider printed around the header and summary. -/
def dividerLine : String := String.mk (List.replicate 60 '=')

/-- The header block of lines 17–20. -/
def headerLines : List String :=
  [dividerLine,
   "ONNX Model Version Check",
   dividerLine,
   ""]

/-- The static runtime-tier table of lines 46–52. -/
def tierTableLines : List String :=
  [dividerLine,
   "ONNX Runtime Compatibility",
   dividerLine,
   "",
   "ONNX Runtime 1.16.3: Supports IR ≤ 9, Opset ≤ 18",
   "ONNX Runtime 1.19.0: Supports IR ≤ 10, Opset ≤ 21",
   ""]

/-- The recommendation block of lines 53–55.  The parameter records the
result set available at this point in the script; the source prints three
fixed lines and never inspects it. -/
def recommendationLines (_results : List CheckResult) : List String :=
  ["Recommendation:",
   "  - If all models have IR ≤ 9: Keep 1.16.3",
   "  - If any model has IR = 10: Upgrade to 1.19.0"]

/-- Modelled from the spec (§4.2, §8): the recommendation the spec says is
derived from the full result set — keep the 1.16.3 tier when every
successfully-loaded model has `ir_version ≤ 9`, otherwise upgrade to
1.19.0. -/
def specRecommendation (results : List CheckResult) : String :=
  if results.all (fun r =>
      match r with
      | .success info _ => decide (info.ir_version ≤ 9)
      | _ => true) then
    "Keep 1.16.3"
  else
    "Upgrade to 1.19.0"

/-- The two lines printed before `sys.exit(1)` when `import onnx` fails
(lines 7–10). -/
def installHintLines : List String :=
  ["ERROR: onnx package not installed",
   "Install with: pip install onnx"]

/-- The whole checking script: if the `onnx` import fails, print the
install hint and exit 1; otherwise print header, per-model report, tier
table and recommendation block, and finish normally (exit 0). -/
def checkScript (onnxInstalled : Bool) (fs : String → LoadOutcome) :
    Nat × List String :=
  if onnxInstalled then
    (0, headerLines ++ runOutput fs models ++ tierTableLines
        ++ recommendationLines (run fs models))
  else
    (1, installHintLines)

/-- The verdict carried by a successful result. -/
def resultVerdict : CheckResult → Option CompatibilityVerdict
  | .success _ v => some v
  | _ => none

/-- The arguments of the `model.export` call of `export_to_onnx.py`
line 20. -/
structure ExportCall where
  format : String
  simplify : Bool
  opset : Nat
deriving DecidableEq, Repr

/-- `model.export(format='onnx', simplify=True, opset=14)`. -/
def exportInvocation : ExportCall :=
  { format := "onnx", simplify := true, opset := 14 }

/-- Outcome of the `model.export` call. -/
inductive ExportOutcome where
  | ok
  | raised (message : String)
deriving DecidableEq, Repr

/-- The lines printed by `export_to_onnx.py`'s `main`: the two progress
lines, then — only when the export call returns — the completion message
naming `yolo12n.onnx` and the opset-14 compatibility note.  An exception
from the export call propagates (there is no handler), so nothing further
is printed. -/
def exportMain (outcome : ExportOutcome) : List String :=
  "Loading YOLOv12n model..." ::
    "Exporting to ONNX format with opset 14 (compatible with ONNX Runtime 1.16)..." ::
    match outcome with
    | .ok =>
      ["Export complete! Model saved as: yolo12n.onnx",
       "Note: Exported with opset 14 for ONNX Runtime 1.16 compatibility"]
    | .raised _ => []

/-- `checkModel` reads the filesystem only at its own path. -/
theorem checkModel_congr (fs fs' : String → LoadOutcome) (path : String)
    (h : fs path = fs' path) : checkModel fs path = checkModel fs' path := by
  unfold checkModel
  rw [h]

/-- C1: the classification branch is total on `Int`: every
`ir_version ≤ 9` yields `compatibleWithCurrent`, every `ir_version ≥ 10`
yields `requiresUpgrade "1.17+"`, and for any input exactly one of the two
verdicts is produced. -/
theorem classify_spec (v : Int) :
    (v ≤ 9 → classify v = .compatibleWithCurrent) ∧
    (10 ≤ v → classify v = .requiresUpgrade "1.17+") ∧
    ((classify v = .compatibleWithCurrent ∧
        classify v ≠ .requiresUpgrade "1.17+") ∨
      (classify v = .requiresUpgrade "1.17+" ∧
        classify v ≠ .compatibleWithCurrent)) := by
  unfold classify
  by_cases h : v ≤ 9
  · rw [if_pos h]
    exact ⟨fun _ => rfl, fun h10 => absurd h10 (by omega), Or.inl ⟨rfl, by simp⟩⟩
  · rw [if_neg h]
    exact ⟨fun h9 => absurd h9 h, fun _ => rfl, Or.inr ⟨rfl, by simp⟩⟩

/-- A filesystem with three well-formed models: ir 9 / opset 18 at `"a"`,
ir 10 / opset 21 at `"b"`, ir 9 / opset 21 at `"c"`. -/
def fsPresent : String → LoadOutcome := fun p =>
  if p = "a" then .found ⟨9, [⟨18⟩]⟩
  else if p = "b" then .found ⟨10, [⟨21⟩]⟩
  else if p = "c" then .found ⟨9, [⟨21⟩]⟩
  else .fileMissing

/-- `fsPresent` with the file at `"b"` removed. -/
def fsMissingB : String → LoadOutcome := fun p =>
  if p = "b" then .fileMissing else fsPresent p

/-- A two-entry descriptor list over `fsPresent`. -/
def twoDescriptors : List ModelDescriptor := [⟨"A", "a"⟩, ⟨"B", "b"⟩]

/-- C2: `run` produces one result per descriptor, in input order; when the
K-th descriptor's file is missing (and no other descriptor shares its
path), the K-th result is `notFound` and every other result is what it
would be with the file present. -/
theorem run_isolation (fs fs' : String → LoadOutcome)
    (ds : List ModelDescriptor) (K : Nat) (dK : ModelDescriptor)
    (hK : ds[K]? = some dK)
    (hmiss : fs' dK.path = .fileMissing)
    (hagree : ∀ p, p ≠ dK.path → fs' p = fs p)
    (hdistinct : ∀ j : Fin ds.length, (j : Nat) ≠ K → (ds.get j).path ≠ dK.path) :
    (run fs' ds).length = ds.length ∧
    (run fs' ds)[K]? = some .notFound ∧
    ∀ j, j ≠ K → (run fs' ds)[j]? = (run fs ds)[j]? := by
  refine ⟨by simp [run], ?_, ?_⟩
  · rw [run, List.getElem?_map, hK]
    simp [checkModel, hmiss]
  · intro j hj
    rw [run, run, List.getElem?_map, List.getElem?_map]
    cases h : ds[j]? with
    | none => rfl
    | some d' =>
      have hlt : j < ds.length := (List.getElem?_eq_some.mp h).1
      have hget : ds.get ⟨j, hlt⟩ = d' := by
        rw [List.get_eq_getElem]
        exact (List.getElem?_eq_some.mp h).2
      have hne : d'.path ≠ dK.path := hget ▸ hdistinct ⟨j, hlt⟩ hj
      simp only [Option.map_some']
      rw [checkModel_congr fs' fs d'.path (hagree d'.path hne)]

/-- Witness for C2: with the file at `"b"` missing, the second result is
`notFound` and the first is unchanged. -/
theorem run_isolation_witness :
    (run fsMissingB twoDescriptors).length = twoDescriptors.length ∧
    (run fsMissingB twoDescriptors)[1]? = some .notFound ∧
    ∀ j, j ≠ 1 → (run fsMissingB twoDescriptors)[j]? = (run fsPresent twoDescriptors)[j]? :=
  run_isolation fsPresent fsMissingB twoDescriptors 1 ⟨"B", "b"⟩ (by decide) (by decide)
    (fun p hp => by simp [fsMissingB, hp]) (by decide)

/-- C3 counterexample: the emitted recommendation block is character-for-
character identical for a result set whose only loaded model has
`ir_version = 10` and for one whose only loaded model has
`ir_version = 9`, while the spec's result-set-derived recommendation
distinguishes the two, so the emitted recommendation is not derived from
the result set. -/
theorem recommendation_not_derived :
    recommendationLines [CheckResult.success ⟨10, 21⟩ (classify 10)] =
      recommendationLines [CheckResult.success ⟨9, 18⟩ (classify 9)] ∧
    specRecommendation [CheckResult.success ⟨10, 21⟩ (classify 10)] ≠
      specRecommendation [CheckResult.success ⟨9, 18⟩ (classify 9)] :=
  ⟨rfl, by decide⟩

/-- C3 (amended): the recommendation block emitted after all descriptors
are processed is a fixed, static text, identical for every result set; it
states the rule — keep 1.16.3 if all models have IR ≤ 9, upgrade to
1.19.0 if any model has IR = 10 — but the script never evaluates that
rule on the results. -/
theorem recommendation_static (results : List CheckResult) :
    recommendationLines results = recommendationLines [] ∧
    "  - If all models have IR ≤ 9: Keep 1.16.3" ∈ recommendationLines results ∧
    "  - If any model has IR = 10: Upgrade to 1.19.0" ∈ recommendationLines results :=
  ⟨rfl, by simp [recommendationLines], by simp [recommendationLines]⟩

/-- C4: a missing file yields `notFound` with the "Model not found" line,
any other load failure yields `loadError` carrying the exception's message
verbatim, printed in the "Error loading model" line, and in every case the
loop continues with the next descriptor. -/
theorem failure_classification (fs : String → LoadOutcome) (name path : String) :
    (fs path = .fileMissing →
      checkModel fs path = .notFound ∧
      checkModelOutput fs name path = [s!"{name}: Model not found at {path}", ""]) ∧
    (∀ msg, fs path = .raised msg →
      checkModel fs path = .loadError msg ∧
      checkModelOutput fs name path = [s!"{name}: Error loading model - {msg}", ""]) ∧
    (∀ d rest, run fs (d :: rest) = checkModel fs d.path :: run fs rest) := by
  refine ⟨fun h => ?_, fun msg h => ?_, fun d rest => ?_⟩
  · exact ⟨by simp [checkModel, h], by simp [checkModelOutput, h]⟩
  · exact ⟨by simp [checkModel, h], by simp [checkModelOutput, h]⟩
  · simp [run]

/-- A filesystem where the file at `"gone"` is missing and every other
load raises an exception with message `"boom"`. -/
def fsFailures : String → LoadOutcome := fun p =>
  if p = "gone" then .fileMissing else .raised "boom"

/-- Witness for C4 at concrete inputs. -/
theorem failure_classification_witness :
    checkModel fsFailures "gone" = .notFound ∧
    checkModel fsFailures "bad" = .loadError "boom" :=
  ⟨((failure_classification fsFailures "YOLO" "gone").1 (by decide)).1,
   ((failure_classification fsFailures "OSNet" "bad").2.1 "boom" (by decide)).1⟩

/-- C5: the verdict is a pure function of `ir_version` alone: two
successful loads with equal `ir_version` and arbitrary filesystems, paths
and opset values produce the same verdict, and each position's result in
`run` is independent of the descriptors before and after it. -/
theorem verdict_pure_in_ir (fs1 fs2 : String → LoadOutcome) (p1 p2 : String)
    (m1 m2 : OnnxModel) (o1 o2 : OpsetImport) (r1 r2 : List OpsetImport)
    (h1 : fs1 p1 = .found m1) (h2 : fs2 p2 = .found m2)
    (ho1 : m1.opset_import = o1 :: r1) (ho2 : m2.opset_import = o2 :: r2)
    (hir : m1.ir_version = m2.ir_version) :
    resultVerdict (checkModel fs1 p1) = resultVerdict (checkModel fs2 p2) ∧
    ∀ fs pre d post,
      run fs (pre ++ d :: post) = run fs pre ++ checkModel fs d.path :: run fs post := by
  constructor
  · simp [checkModel, h1, h2, ho1, ho2, resultVerdict, hir]
  · intro fs pre d post
    simp [run]

/-- Witness for C5: the models at `"a"` (opset 18) and `"c"` (opset 21)
share `ir_version = 9` and get the same verdict. -/
theorem verdict_pure_in_ir_witness :
    resultVerdict (checkModel fsPresent "a") = resultVerdict (checkModel fsPresent "c") :=
  (verdict_pure_in_ir fsPresent fsPresent "a" "c" ⟨9, [⟨18⟩]⟩ ⟨9, [⟨21⟩]⟩ ⟨18⟩ ⟨21⟩ [] []
    (by decide) (by decide) rfl rfl rfl).1

/-- C6: on a successful load the result carries `ir_version` from the
model's top-level field and `opset_version` from index 0 of its
opset-import list; with `ir_version = 9` and `opset_version = 18` the
result is `Success({9,18}, CompatibleWithCurrent)` and the report contains
the "Compatible with ONNX Runtime 1.16.3" line. -/
theorem success_extraction (fs : String → LoadOutcome) (name path : String)
    (m : OnnxModel) (op : OpsetImport) (rest : List OpsetImport)
    (hf : fs path = .found m) (ho : m.opset_import = op :: rest) :
    checkModel fs path = .success ⟨m.ir_version, op.version⟩ (classify m.ir_version) ∧
    (m.ir_version = 9 → op.version = 18 →
      checkModel fs path = .success ⟨9, 18⟩ .compatibleWithCurrent ∧
      "  ✓ Compatible with ONNX Runtime 1.16.3" ∈ checkModelOutput fs name path) := by
  refine ⟨by simp [checkModel, hf, ho], fun h9 h18 => ⟨?_, ?_⟩⟩
  · simp [checkModel, hf, ho, h9, h18, classify]
  · simp [checkModelOutput, hf, ho, h9]

/-- Witness for C6: the model at `"a"` has ir 9 / opset 18. -/
theorem success_extraction_witness :
    checkModel fsPresent "a" = .success ⟨9, 18⟩ .compatibleWithCurrent ∧
    "  ✓ Compatible with ONNX Runtime 1.16.3" ∈ checkModelOutput fsPresent "YOLO" "a" :=
  (success_extraction fsPresent "YOLO" "a" ⟨9, [⟨18⟩]⟩ ⟨18⟩ [] (by decide) rfl).2 rfl rfl

/-- C7: the script exits 1 exactly when the `onnx` package is absent, in
which case it prints the install hint; with the package present it
finishes with exit code 0 whatever the filesystem does, including missing
or unloadable models. -/
theorem exit_code_spec (onnxInstalled : Bool) (fs : String → LoadOutcome) :
    ((checkScript onnxInstalled fs).1 = 1 ↔ onnxInstalled = false) ∧
    ((checkScript onnxInstalled fs).1 = 0 ↔ onnxInstalled = true) ∧
    (onnxInstalled = false → (checkScript onnxInstalled fs).2 = installHintLines) := by
  cases onnxInstalled <;> simp [checkScript]

/-- Witness for C7: with the package absent the output is the install
hint; with it present and every file missing the exit code is 0. -/
theorem exit_code_spec_witness :
    (checkScript false (fun _ => .fileMissing)).2 = installHintLines ∧
    (checkScript true (fun _ => .fileMissing)).1 = 0 :=
  ⟨(exit_code_spec false (fun _ => .fileMissing)).2.2 rfl,
   (exit_code_spec true (fun _ => .fileMissing)).2.1.mpr rfl⟩

/-- C8: the export call uses `format='onnx'`, `simplify=True`, `opset=14`,
and on a successful call the script prints the completion message naming
`yolo12n.onnx` and the opset-14 / ONNX Runtime 1.16 compatibility note. -/
theorem export_invocation_spec :
    exportInvocation.opset = 14 ∧
    exportInvocation.simplify = true ∧
    exportInvocation.format = "onnx" ∧
    "Export complete! Model saved as: yolo12n.onnx" ∈ exportMain .ok ∧
    "Note: Exported with opset 14 for ONNX Runtime 1.16 compatibility" ∈ exportMain .ok := by
  refine ⟨rfl, rfl, rfl, ?_, ?_⟩ <;> simp [exportMain]

/-- C9: each iteration of the loop performs exactly one load, at its own
descriptor's path, in input order — never zero (earlier failures do not
skip it) and never more than one (no retry): the load-attempt trace equals
the descriptors' path list, and the results are those of `run`. -/
theorem load_attempted_once (fs : String → LoadOutcome) (ds : List ModelDescriptor) :
    (runWithAttempts fs ds).map Prod.fst = ds.map ModelDescriptor.path ∧
    (runWithAttempts fs ds).map Prod.snd = run fs ds := by
  induction ds with
  | nil => exact ⟨rfl, rfl⟩
  | cons d rest ih =>
    refine ⟨?_, ?_⟩
    · simpa [runWithAttempts] using ih.1
    · simpa [runWithAttempts, run] using ih.2

/-- `fsPresent` with a model at `"e"` whose opset-import list is empty. -/
def fsEmptyOpset : String → LoadOutcome := fun p =>
  if p = "e" then .found ⟨9, []⟩ else fsPresent p

/-- C10: a model that parses with an empty opset-import list does not
crash the run: the index-0 access raises, the generic handler reports a
load error for that model, and all descriptors before and after it are
processed as usual. -/
theorem empty_opset_isolated (fs : String → LoadOutcome) (d : ModelDescriptor)
    (m : OnnxModel) (hf : fs d.path = .found m) (he : m.opset_import = []) :
    ∀ pre post, run fs (pre ++ d :: post) =
      run fs pre ++ CheckResult.loadError indexErrorMessage :: run fs post := by
  intro pre post
  have hd : checkModel fs d.path = .loadError indexErrorMessage := by
    simp [checkModel, hf, he]
  simp [run, hd]

/-- Witness for C10: a middle descriptor with an empty opset-import list
leaves the surrounding descriptors' results intact. -/
theorem empty_opset_isolated_witness :
    run fsEmptyOpset ([⟨"A", "a"⟩] ++ ⟨"E", "e"⟩ :: [⟨"B", "b"⟩]) =
      run fsEmptyOpset [⟨"A", "a"⟩] ++
        CheckResult.loadError indexErrorMessage :: run fsEmptyOpset [⟨"B", "b"⟩] :=
  empty_opset_isolated fsEmptyOpset ⟨"E", "e"⟩ ⟨9, []⟩ (by decide) rfl [⟨"A", "a"⟩] [⟨"B", "b"⟩]

/-- Witness for C1 at the concrete inputs 9 and 10. -/
theorem classify_spec_witness :
    classify 9 = .compatibleWithCurrent ∧
    classify 10 = .requiresUpgrade "1.17+" :=
  ⟨(classify_spec 9).1 (by decide), (classify_spec 10).2.1 (by decide)⟩

end RoboRover
